import Mathlib

set_option maxHeartbeats 1000000
set_option autoImplicit false

/-!
Shallow embedding of `models/networks.py` (MeshCNN-style mesh networks).

Feature tensors are modelled symbolically: a `Tensor` is the tree of
architectural operations applied to an input tensor.  The numeric content of
each operation (convolution arithmetic, softmax, ...) is delegated to an
external library in the source and is out of scope here; what the embedding
tracks is exactly which operations are issued, in which order, with which
statically-declared channel/pooling parameters.  Fallible construction and
forward code is modelled with `Except PyError`.
-/

/-- Symbolic per-edge feature tensor: the tree of operations applied so far.
`meshConv a b t` is `MeshConv(a, b)` applied to `t`; `pool k t` is
`MeshPool(k)`; `unpool k t` is `MeshUnpool(k)`; `norm` is the 2d instance
norm used inside Down/Up stages, `norm1d` the `InstanceNorm1d` of the fully
connected head (including its surrounding unsqueeze/squeeze plumbing);
`linear a b t` is `nn.Linear(a, b)`; `flatten` is the
`view(batch, -1)` reshape; `globalPool` the configured 1d global pool. -/
inductive Tensor where
  | input : Tensor
  | meshConv : Nat → Nat → Tensor → Tensor
  | norm : Tensor → Tensor
  | relu : Tensor → Tensor
  | add : Tensor → Tensor → Tensor
  | squeeze : Tensor → Tensor
  | pool : Nat → Tensor → Tensor
  | unpool : Nat → Tensor → Tensor
  | attention : Tensor → Tensor
  | cat : Tensor → Tensor → Tensor
  | globalPool : Tensor → Tensor
  | flatten : Tensor → Tensor
  | linear : Nat → Nat → Tensor → Tensor
  | norm1d : Tensor → Tensor
deriving DecidableEq, Repr

/-- Whether any concatenation operation occurs anywhere in the tree. -/
def Tensor.containsCat : Tensor → Bool
  | .input => false
  | .meshConv _ _ t => t.containsCat
  | .norm t => t.containsCat
  | .relu t => t.containsCat
  | .add a b => a.containsCat || b.containsCat
  | .squeeze t => t.containsCat
  | .pool _ t => t.containsCat
  | .unpool _ t => t.containsCat
  | .attention t => t.containsCat
  | .cat _ _ => true
  | .globalPool t => t.containsCat
  | .flatten t => t.containsCat
  | .linear _ _ t => t.containsCat
  | .norm1d t => t.containsCat

/-- Whether any mesh-pooling operation occurs anywhere in the tree. -/
def Tensor.containsPool : Tensor → Bool
  | .input => false
  | .meshConv _ _ t => t.containsPool
  | .norm t => t.containsPool
  | .relu t => t.containsPool
  | .add a b => a.containsPool || b.containsPool
  | .squeeze t => t.containsPool
  | .pool _ _ => true
  | .unpool _ t => t.containsPool
  | .attention t => t.containsPool
  | .cat a b => a.containsPool || b.containsPool
  | .globalPool t => t.containsPool
  | .flatten t => t.containsPool
  | .linear _ _ t => t.containsPool
  | .norm1d t => t.containsPool

/-- The outermost operation is the fully connected head normalization. -/
def Tensor.headIsNorm1d : Tensor → Bool
  | .norm1d _ => true
  | _ => false

/-- The outermost operation is a nonlinearity. -/
def Tensor.headIsRelu : Tensor → Bool
  | .relu _ => true
  | _ => false

/-- Python runtime failures the translated code can raise. -/
inductive PyError where
  | assertionError : String → PyError
  | notImplementedError : String → PyError
  | indexError : String → PyError
  | typeError : String → PyError
  | unboundLocalError : String → PyError
  | zeroDivisionError : String → PyError
deriving DecidableEq, Repr

/-- Normalization layer kind chosen by `get_norm_layer` (`batch`, `instance`,
`group`, `none`). -/
inductive NormKind where
  | batch
  | inst
  | group
  | noNorm
deriving DecidableEq, Repr

/-- A keyword-argument record produced by `get_norm_args`. -/
inductive NormArg where
  | fake
  | numChannels : Nat → NormArg
deriving DecidableEq, Repr

/-- `get_norm_args(norm_layer, nfeats_list)`.  The source compares
`norm_layer.func.__name__` against the exact strings `GroupNorm` and
`BatchNorm`; `functools.partial(nn.BatchNorm2d).func.__name__` is
`BatchNorm2d` and `InstanceNorm2d` is never tested, so both the batch and
the instance kinds fall through to the `NotImplementedError` branch. -/
def get_norm_args (n : NormKind) (nfeats_list : List Nat) : Except PyError (List NormArg) :=
  match n with
  | .noNorm => .ok (nfeats_list.map fun _ => NormArg.fake)
  | .group => .ok (nfeats_list.map fun f => NormArg.numChannels f)
  | .batch => .error (.notImplementedError "normalization layer is not found")
  | .inst => .error (.notImplementedError "normalization layer is not found")

/-- Loss selected by `define_loss`. -/
inductive LossKind where
  | crossEntropy
  | crossEntropyIgnoreNeg1
deriving DecidableEq, Repr

/-- `define_loss(opt)`: only `classification` and `segmentation` assign to
the local `loss`; any other selector reaches `return loss` with `loss`
unassigned, so Python raises `UnboundLocalError` for the name `loss`. -/
def define_loss (dataset_mode : String) : Except PyError LossKind :=
  if dataset_mode = "classification" then .ok .crossEntropy
  else if dataset_mode = "segmentation" then .ok .crossEntropyIgnoreNeg1
  else .error (.unboundLocalError "loss")

/-- The message of the `double_attention` assertion in
`MeshAttentionNet.__init__` and `DownConvWithAttention.__init__`. -/
def doubleAttnMsg : String :=
  "must have attn_use_values_as_is=True if double_attention=True, since the attention layer works on its own outputs"

/-- The structurally relevant attention flags threaded through the attention
variants (`attn_dropout` and `attn_max_dist` are numeric knobs of the
external attention collaborator and are architecturally inert). -/
structure AttnConfig where
  prioritize_with_attention : Bool
  attn_use_values_as_is : Bool
  double_attention : Bool
  attn_use_positional_encoding : Bool
  attn_max_relative_position : Nat
deriving DecidableEq, Repr

/-- The residual convolution loop shared by `DownConv.forward` and
`UpConv.forward` (`for idx, conv in enumerate(self.conv2): ...`): each round
applies a `MeshConv(c, c)`, the instance norm when the `bn` list is
non-empty, the residual add when enabled, then `relu`. -/
def residualLoop (c : Nat) (bn residual : Bool) : Nat → Tensor → Tensor
  | 0, x => x
  | n + 1, x =>
      let y := Tensor.meshConv c c x
      let y := if bn then Tensor.norm y else y
      let y := if residual then Tensor.add y x else y
      residualLoop c bn residual n (Tensor.relu y)

/-- `DownConv`: `pool = none` models Python `self.pool = None` (the
constructor only installs a `MeshPool` when the `pool` argument is
truthy, i.e. nonzero). -/
structure DownConv where
  in_channels : Nat
  out_channels : Nat
  blocks : Nat
  pool : Option Nat
deriving DecidableEq, Repr

/-- `DownConv.__init__(in_channels, out_channels, blocks, pool)`. -/
def DownConv.make (in_c out_c blocks pool : Nat) : DownConv :=
  { in_channels := in_c, out_channels := out_c, blocks := blocks,
    pool := if pool = 0 then none else some pool }

/-- The convolutional part of `DownConv.forward` up to (and including) the
`squeeze(3)`: first conv `in -> out`, norm (`self.bn` is always non-empty),
relu, then the residual loop.  This is exactly the value the source names
`x2` right before the pooling branch. -/
def DownConv.convPart (d : DownConv) (fe : Tensor) : Tensor :=
  Tensor.squeeze (residualLoop d.out_channels true true d.blocks
    (Tensor.relu (Tensor.norm (Tensor.meshConv d.in_channels d.out_channels fe))))

/-- `DownConv.forward`: returns `(x2, before_pool)`; `before_pool` is the
pre-pool snapshot, set only when a pooling layer was installed. -/
def DownConv.forward (d : DownConv) (fe : Tensor) : Tensor × Option Tensor :=
  match d.pool with
  | none => (d.convPart fe, none)
  | some p => (Tensor.pool p (d.convPart fe), some (d.convPart fe))

/-- `DownConvWithAttention`: the constructor moves the inherited pool into
`real_pool` (setting the inherited `pool` to `None`), so the superclass
forward never pools and the subclass pools after attention. -/
structure DownConvWithAttention where
  in_channels : Nat
  out_channels : Nat
  blocks : Nat
  real_pool : Option Nat
  cfg : AttnConfig
deriving DecidableEq, Repr

/-- `DownConvWithAttention.__init__`: after the superclass constructor it
asserts the `double_attention` flag combination before building the
attention layer. -/
def DownConvWithAttention.make (in_c out_c blocks pool : Nat) (cfg : AttnConfig) :
    Except PyError DownConvWithAttention :=
  if cfg.double_attention && !cfg.attn_use_values_as_is then
    .error (.assertionError doubleAttnMsg)
  else
    .ok { in_channels := in_c, out_channels := out_c, blocks := blocks,
          real_pool := if pool = 0 then none else some pool, cfg := cfg }

/-- Pre-pool part of `DownConvWithAttention.forward`: the superclass conv
stack (whose own pool slot is `None`) followed by the attention layer. -/
def DownConvWithAttention.convPart (d : DownConvWithAttention) (fe : Tensor) : Tensor :=
  Tensor.attention
    ((DownConv.forward
        { in_channels := d.in_channels, out_channels := d.out_channels,
          blocks := d.blocks, pool := none } fe).1)

/-- `DownConvWithAttention.forward`: conv stack, attention, then the real
pool (with the optional detached double-attention pass only refreshing the
pooling priorities, not the returned features). -/
def DownConvWithAttention.forward (d : DownConvWithAttention) (fe : Tensor) :
    Tensor × Option Tensor :=
  match d.real_pool with
  | none => (d.convPart fe, none)
  | some p => (Tensor.pool p (d.convPart fe), some (d.convPart fe))

/-- `UpConv`: `conv1` records the statically declared `(in, out)` channel
pair of the main convolution built in the constructor. -/
structure UpConv where
  in_channels : Nat
  out_channels : Nat
  blocks : Nat
  unroll : Option Nat
  residual : Bool
  batch_norm : Bool
  transfer_data : Bool
  conv1 : Nat × Nat
deriving DecidableEq, Repr

/-- `UpConv.__init__`: `self.conv1 = MeshConv(2 * out_channels, out_channels)`
when `transfer_data` else `MeshConv(out_channels, out_channels)`;
`self.unroll` is installed only for a truthy (nonzero) `unroll` argument. -/
def UpConv.make (in_c out_c blocks unroll : Nat) (residual batch_norm transfer_data : Bool) :
    UpConv :=
  { in_channels := in_c, out_channels := out_c, blocks := blocks,
    unroll := if unroll = 0 then none else some unroll,
    residual := residual, batch_norm := batch_norm, transfer_data := transfer_data,
    conv1 := if transfer_data then (2 * out_c, out_c) else (out_c, out_c) }

/-- The part of `UpConv.forward` from `self.conv1` on: main conv, norm when
`batch_norm`, relu, the residual loop, final `squeeze(3)`. -/
def UpConv.mainBlock (u : UpConv) (x : Tensor) : Tensor :=
  let x1 := Tensor.meshConv u.conv1.1 u.conv1.2 x
  let x1 := if u.batch_norm then Tensor.norm x1 else x1
  Tensor.squeeze (residualLoop u.out_channels u.batch_norm u.residual u.blocks (Tensor.relu x1))

/-- `UpConv.forward(x, from_down)`: up conv, squeeze, optional unroll, then
`torch.cat((x1, from_down), 1)` when `transfer_data` — with no branch for a
null skip, so a `None` `from_down` makes `torch.cat` raise `TypeError`. -/
def UpConv.forward (u : UpConv) (from_up : Tensor) (from_down : Option Tensor) :
    Except PyError Tensor :=
  let x1 := Tensor.squeeze (Tensor.meshConv u.in_channels u.out_channels from_up)
  let x1 := match u.unroll with
    | some t => Tensor.unpool t x1
    | none => x1
  if u.transfer_data then
    match from_down with
    | none => .error (.typeError "expected Tensor as element 1 in argument 0, but got NoneType")
    | some fd => .ok (u.mainBlock (Tensor.cat x1 fd))
  else
    .ok (u.mainBlock x1)

/-- One encoder stage: `MeshEncoder` builds either plain `DownConv` stages or
`DownConvWithAttention` stages, depending on whether attention parameters
were supplied. -/
inductive Stage where
  | plain : DownConv → Stage
  | attn : DownConvWithAttention → Stage
deriving DecidableEq, Repr

/-- Default stage used for out-of-range list reads in statements. -/
def dfltStage : Stage := .plain (DownConv.make 0 0 0 0)

/-- Forward of one encoder stage. -/
def Stage.forward : Stage → Tensor → Tensor × Option Tensor
  | .plain d, fe => d.forward fe
  | .attn d, fe => d.forward fe

/-- The stage's pre-pool feature computation (conv stack, plus attention for
the attention variant). -/
def Stage.prePool : Stage → Tensor → Tensor
  | .plain d, fe => d.convPart fe
  | .attn d, fe => d.convPart fe

/-- The pooling target installed at construction (`none` when the stage was
built with a zero pooling argument). -/
def Stage.poolTarget : Stage → Option Nat
  | .plain d => d.pool
  | .attn d => d.real_pool

/-- The stage loop of `MeshEncoder.__init__` without attention: stage `i`
is `DownConv(convs[i], convs[i+1], blocks, pools[i+1] if i+1 < len(pools)
else 0)`.  `i` is the index of the first stage still to build, `n` the
number of stages remaining. -/
def buildPlainStages (pools convs : List Nat) (blocks : Nat) : Nat → Nat → List Stage
  | _, 0 => []
  | i, n + 1 =>
      Stage.plain (DownConv.make (convs.getD i 0) (convs.getD (i + 1) 0) blocks
          (pools.getD (i + 1) 0))
        :: buildPlainStages pools convs blocks (i + 1) n

/-- The stage loop of `MeshEncoder.__init__` with attention: each stage is a
`DownConvWithAttention`, whose constructor can fail on the invalid flag
combination. -/
def buildAttnStages (pools convs : List Nat) (blocks : Nat) (cfg : AttnConfig) :
    Nat → Nat → Except PyError (List Stage)
  | _, 0 => .ok []
  | i, n + 1 =>
      match DownConvWithAttention.make (convs.getD i 0) (convs.getD (i + 1) 0) blocks
          (pools.getD (i + 1) 0) cfg with
      | .error e => .error e
      | .ok d =>
          (buildAttnStages pools convs blocks cfg (i + 1) n).map
            fun rest => Stage.attn d :: rest

/-- Stage construction of `MeshEncoder.__init__` (the loop over
`range(len(convs) - 1)`). -/
def makeStages (pools convs : List Nat) (blocks : Nat) :
    Option AttnConfig → Except PyError (List Stage)
  | none => .ok (buildPlainStages pools convs blocks 0 (convs.length - 1))
  | some cfg => buildAttnStages pools convs blocks cfg 0 (convs.length - 1)

/-- Global pool kind parsed from the `global_pool` string argument. -/
inductive GPool where
  | max
  | avg
deriving DecidableEq, Repr

/-- The `global_pool` validation of `MeshEncoder.__init__`: `max` and `avg`
are accepted, any other supplied string hits `assert False`. -/
def parseGlobalPool : Option String → Except PyError (Option GPool)
  | none => .ok none
  | some s =>
      if s = "max" then .ok (some .max)
      else if s = "avg" then .ok (some .avg)
      else .error (.assertionError "global_pool is not defined")

/-- The flattened feature length feeding the first fully connected layer:
`convs[-1]` when a global pool is installed, else `convs[-1] * pools[-1]`. -/
def fcInputLength (convs pools : List Nat) : Option GPool → Nat
  | some _ => convs.getLastD 0
  | none => convs.getLastD 0 * pools.getLastD 0

/-- The fully connected chain builder of `MeshEncoder.__init__`
(`for length in fcs: self.fcs.append(nn.Linear(last_length, length)); ...`),
returning the declared `(in, out)` pairs in order. -/
def buildFcs (last_length : Nat) : List Nat → List (Nat × Nat)
  | [] => []
  | l :: ls => (last_length, l) :: buildFcs l ls

/-- `MeshEncoder`: constructed stage list plus the fully connected head
configuration (`hasFcs` models `self.fcs is not None`). -/
structure MeshEncoder where
  stages : List Stage
  hasFcs : Bool
  global_pool : Option GPool
  fcLayers : List (Nat × Nat)
deriving DecidableEq, Repr

/-- `MeshEncoder.__init__(pools, convs, fcs, blocks, global_pool, ...)`.
Faithful points: stages beyond the pool schedule get pool target `0`
(no length validation); with a fully connected head, `convs[-1]` is read
first (IndexError on an empty channel schedule), the `global_pool` string is
validated, `pools[-1]` is read (IndexError on an empty pool schedule),
`fcs[0]` is read (IndexError on an empty fcs list) and dropped when it
equals the computed input length. -/
def MeshEncoder.make (pools convs : List Nat) (fcs : Option (List Nat)) (blocks : Nat)
    (global_pool : Option String) (attn : Option AttnConfig) : Except PyError MeshEncoder :=
  match makeStages pools convs blocks attn with
  | .error e => .error e
  | .ok stages =>
    match fcs with
    | none => .ok { stages := stages, hasFcs := false, global_pool := none, fcLayers := [] }
    | some fcl =>
      if convs.isEmpty then .error (.indexError "convs")
      else
        match parseGlobalPool global_pool with
        | .error e => .error e
        | .ok gpk =>
          if pools.isEmpty then .error (.indexError "pools")
          else
            match fcl with
            | [] => .error (.indexError "fcs")
            | f :: rest =>
              let last0 := fcInputLength convs pools gpk
              let eff := if f = last0 then rest else f :: rest
              .ok { stages := stages, hasFcs := true, global_pool := gpk,
                    fcLayers := buildFcs last0 eff }

/-- The stage loop of `MeshEncoder.forward`, returning the final features
and the `encoder_outs` list of pre-pool snapshots in stage order. -/
def stagesForward : List Stage → Tensor → Tensor × List (Option Tensor)
  | [], fe => (fe, [])
  | s :: rest, fe =>
      let r := s.forward fe
      let r2 := stagesForward rest r.1
      (r2.1, r.2 :: r2.2)

/-- Apply the configured global pool (a no-op slot when not configured). -/
def applyGPool : Option GPool → Tensor → Tensor
  | none, t => t
  | some _, t => Tensor.globalPool t

/-- The fully connected loop of `MeshEncoder.forward`: each layer applies
`nn.Linear`, then (`self.fcs_bn` being non-empty whenever there is at least
one layer) the `InstanceNorm1d` with its unsqueeze/squeeze plumbing, and
`relu` only while `i < len(self.fcs) - 1`. -/
def fcChain : List (Nat × Nat) → Tensor → Tensor
  | [], fe => fe
  | [(a, b)], fe => Tensor.norm1d (Tensor.linear a b fe)
  | (a, b) :: l :: ls, fe =>
      fcChain (l :: ls) (Tensor.relu (Tensor.norm1d (Tensor.linear a b fe)))

/-- `MeshEncoder.forward`: run the stages collecting `encoder_outs`; when a
fully connected head is present, apply the global pool when configured,
flatten, and run the fully connected chain. -/
def MeshEncoder.forward (e : MeshEncoder) (fe : Tensor) : Tensor × List (Option Tensor) :=
  let r := stagesForward e.stages fe
  if e.hasFcs then
    (fcChain e.fcLayers (Tensor.flatten (applyGPool e.global_pool r.1)), r.2)
  else
    (r.1, r.2)

/-- The up-conv loop of `MeshDecoder.__init__`: stage `i` is
`UpConv(convs[i], convs[i+1], blocks, unrolls[i] if i < len(unrolls) else 0,
batch_norm, transfer_data)` (with the default `residual=True`). -/
def buildUps (unrolls convs : List Nat) (blocks : Nat) (bn td : Bool) :
    Nat → Nat → List UpConv
  | _, 0 => []
  | i, n + 1 =>
      UpConv.make (convs.getD i 0) (convs.getD (i + 1) 0) blocks (unrolls.getD i 0) true bn td
        :: buildUps unrolls convs blocks bn td (i + 1) n

/-- The `final_conv` of `MeshDecoder.__init__`:
`UpConv(convs[-2], convs[-1], blocks, unroll=False, batch_norm,
transfer_data=False)`. -/
def MeshDecoder.finalConvOf (convs : List Nat) (blocks : Nat) (bn : Bool) : UpConv :=
  UpConv.make (convs.getD (convs.length - 2) 0) (convs.getLastD 0) blocks 0 true bn false

/-- `MeshDecoder`. -/
structure MeshDecoder where
  up_convs : List UpConv
  final_conv : UpConv
deriving DecidableEq, Repr

/-- `MeshDecoder.__init__(unrolls, convs, blocks, batch_norm,
transfer_data)`: reading `convs[-2]` raises IndexError when fewer than two
channel entries are declared. -/
def MeshDecoder.make (unrolls convs : List Nat) (blocks : Nat) (bn td : Bool) :
    Except PyError MeshDecoder :=
  if convs.length < 2 then .error (.indexError "convs")
  else
    .ok { up_convs := buildUps unrolls convs blocks bn td 0 (convs.length - 2),
          final_conv := MeshDecoder.finalConvOf convs blocks bn }

/-- The skip input handed to up-conv stage `i` by `MeshDecoder.forward`:
`None` when `encoder_outs` is absent, else the Python negative-index read
`encoder_outs[-(i+2)]` (an IndexError when out of range). -/
def MeshDecoder.skipFor (encoder_outs : Option (List (Option Tensor))) (i : Nat) :
    Except PyError (Option Tensor) :=
  match encoder_outs with
  | none => .ok none
  | some l =>
      if i + 2 ≤ l.length then .ok (l.getD (l.length - (i + 2)) none)
      else .error (.indexError "encoder_outs")

/-- The up-conv loop of `MeshDecoder.forward`. -/
def decoderLoop (outs : Option (List (Option Tensor))) :
    List UpConv → Nat → Tensor → Except PyError Tensor
  | [], _, fe => .ok fe
  | u :: rest, i, fe =>
      match MeshDecoder.skipFor outs i with
      | .error e => .error e
      | .ok bp =>
          match u.forward fe bp with
          | .error e => .error e
          | .ok fe2 => decoderLoop outs rest (i + 1) fe2

/-- `MeshDecoder.forward(x, encoder_outs)`: the up-conv loop, then
`final_conv` invoked with its default null skip. -/
def MeshDecoder.forward (d : MeshDecoder) (fe : Tensor)
    (outs : Option (List (Option Tensor))) : Except PyError Tensor :=
  match decoderLoop outs d.up_convs 0 fe with
  | .error e => .error e
  | .ok f => d.final_conv.forward f none

/-- `MeshEncoderDecoder`. -/
structure MeshEncoderDecoder where
  encoder : MeshEncoder
  decoder : MeshDecoder
  transfer_data : Bool
deriving DecidableEq, Repr

/-- `MeshEncoderDecoder.__init__(pools, down_convs, up_convs, blocks,
transfer_data)`: encoder without a fully connected head, decoder unrolls
are `pools[:-1]` reversed. -/
def MeshEncoderDecoder.make (pools down_convs up_convs : List Nat) (blocks : Nat)
    (transfer_data : Bool) : Except PyError MeshEncoderDecoder :=
  match MeshEncoder.make pools down_convs none blocks none none with
  | .error e => .error e
  | .ok enc =>
    match MeshDecoder.make pools.dropLast.reverse up_convs blocks true transfer_data with
    | .error e => .error e
    | .ok dec => .ok { encoder := enc, decoder := dec, transfer_data := transfer_data }

/-- `MeshEncoderDecoder.forward`: encoder, then decoder consuming the
encoder's skip cache. -/
def MeshEncoderDecoder.forward (m : MeshEncoderDecoder) (fe : Tensor) :
    Except PyError Tensor :=
  let r := m.encoder.forward fe
  m.decoder.forward r.1 (some r.2)

/-- `MeshEncoderDecoderWithAttention`. -/
structure MeshEncoderDecoderWithAttention where
  encoder : MeshEncoder
  decoder : MeshDecoder
  transfer_data : Bool
deriving DecidableEq, Repr

/-- `MeshEncoderDecoderWithAttention.__init__(pools, down_convs, up_convs,
blocks, transfer_data, attention parameters)`: encoder built from
`DownConvWithAttention` stages (so construction can fail only on the
double-attention flag assertion inside a stage), decoder unrolls are
`pools[:-1]` reversed, exactly as in the plain variant. -/
def MeshEncoderDecoderWithAttention.make (pools down_convs up_convs : List Nat)
    (blocks : Nat) (transfer_data : Bool) (cfg : AttnConfig) :
    Except PyError MeshEncoderDecoderWithAttention :=
  match MeshEncoder.make pools down_convs none blocks none (some cfg) with
  | .error e => .error e
  | .ok enc =>
    match MeshDecoder.make pools.dropLast.reverse up_convs blocks true transfer_data with
    | .error e => .error e
    | .ok dec => .ok { encoder := enc, decoder := dec, transfer_data := transfer_data }

/-- `MeshEncoderDecoderWithAttention.forward`: encoder, then decoder
consuming the encoder's skip cache. -/
def MeshEncoderDecoderWithAttention.forward (m : MeshEncoderDecoderWithAttention)
    (fe : Tensor) : Except PyError Tensor :=
  let r := m.encoder.forward fe
  m.decoder.forward r.1 (some r.2)

/-- One classifier stage of `MeshConvNet` / `MeshAttentionNet`: an `MResConv`
channel pair, an optional attention head dimension `int(k[i+1]/n_heads)`,
and the `MeshPool` target `res[i+1]`. -/
structure ClsStage where
  conv : Nat × Nat
  attn_d : Option Nat
  poolTo : Nat
deriving DecidableEq, Repr

/-- The stage loop shared by `MeshConvNet.__init__` and
`MeshAttentionNet.__init__`: for each `i`, build the conv, then — for the
attention variant — the attention layer (a ZeroDivisionError when
`attn_n_heads` is zero), then `MeshPool(res[i+1])` (an IndexError when the
pool schedule is too short). -/
def buildClsStages (k res : List Nat) (heads : Option Nat) :
    Nat → Nat → Except PyError (List ClsStage)
  | _, 0 => .ok []
  | i, n + 1 =>
      if heads = some 0 then .error (.zeroDivisionError "division by zero")
      else if i + 1 < res.length then
        (buildClsStages k res heads (i + 1) n).map
          fun rest =>
            { conv := (k.getD i 0, k.getD (i + 1) 0),
              attn_d := heads.map fun h => k.getD (i + 1) 0 / h,
              poolTo := res.getD (i + 1) 0 } :: rest
      else .error (.indexError "res")

/-- `MeshConvNet`. -/
structure MeshConvNet where
  k : List Nat
  res : List Nat
  stages : List ClsStage
  gp_kernel : Nat
  fc1 : Nat × Nat
  fc2 : Nat × Nat
deriving DecidableEq, Repr

/-- `MeshConvNet.__init__(norm_layer, nf0, conv_res, nclasses, input_res,
pool_res, fc_n, nresblocks)`: `k = [nf0] + conv_res`,
`res = [input_res] + pool_res`, `get_norm_args` on `k[1:]`, the stage loop,
then the global average pool and two linear layers. -/
def MeshConvNet.make (norm : NormKind) (nf0 : Nat) (conv_res : List Nat)
    (nclasses input_res : Nat) (pool_res : List Nat) (fc_n : Nat) :
    Except PyError MeshConvNet :=
  let k := nf0 :: conv_res
  let res := input_res :: pool_res
  match get_norm_args norm conv_res with
  | .error e => .error e
  | .ok _ =>
    match buildClsStages k res none 0 (k.length - 1) with
    | .error e => .error e
    | .ok stages =>
        .ok { k := k, res := res, stages := stages, gp_kernel := res.getLastD 0,
              fc1 := (k.getLastD 0, fc_n), fc2 := (fc_n, nclasses) }

/-- `MeshAttentionNet`. -/
structure MeshAttentionNet where
  k : List Nat
  res : List Nat
  stages : List ClsStage
  cfg : AttnConfig
  gp_kernel : Nat
  fc1 : Nat × Nat
  fc2 : Nat × Nat
deriving DecidableEq, Repr

/-- `MeshAttentionNet.__init__`: the very first statement after the
superclass constructor is the `double_attention` assertion; only then are
`get_norm_args` and the stage loop run. -/
def MeshAttentionNet.make (norm : NormKind) (nf0 : Nat) (conv_res : List Nat)
    (nclasses input_res : Nat) (pool_res : List Nat) (fc_n attn_n_heads : Nat)
    (cfg : AttnConfig) : Except PyError MeshAttentionNet :=
  if cfg.double_attention && !cfg.attn_use_values_as_is then
    .error (.assertionError doubleAttnMsg)
  else
    let k := nf0 :: conv_res
    let res := input_res :: pool_res
    match get_norm_args norm conv_res with
    | .error e => .error e
    | .ok _ =>
      match buildClsStages k res (some attn_n_heads) 0 (k.length - 1) with
      | .error e => .error e
      | .ok stages =>
          .ok { k := k, res := res, stages := stages, cfg := cfg,
                gp_kernel := res.getLastD 0,
                fc1 := (k.getLastD 0, fc_n), fc2 := (fc_n, nclasses) }

/-- The stage input fed to encoder stage `i` by the forward loop: the input
for stage `0`, else stage `i-1`'s pooled output. -/
def stageInput : List Stage → Tensor → Nat → Tensor
  | _, fe, 0 => fe
  | [], fe, _ + 1 => fe
  | s :: rest, fe, i + 1 => stageInput rest (s.forward fe).1 i

/-- Extract the encoder of a successful construction (default otherwise). -/
def encOrDefault (r : Except PyError MeshEncoder) : MeshEncoder :=
  match r with
  | .ok e => e
  | .error _ => { stages := [], hasFcs := false, global_pool := none, fcLayers := [] }

/-- Extract the attention down-stage of a successful construction. -/
def dcaOrDefault (r : Except PyError DownConvWithAttention) : DownConvWithAttention :=
  match r with
  | .ok d => d
  | .error _ =>
      { in_channels := 0, out_channels := 0, blocks := 0, real_pool := none,
        cfg := { prioritize_with_attention := false, attn_use_values_as_is := true,
                 double_attention := false, attn_use_positional_encoding := false,
                 attn_max_relative_position := 0 } }

/-- Extract the decoder of a successful construction. -/
def decOrDefault (r : Except PyError MeshDecoder) : MeshDecoder :=
  match r with
  | .ok d => d
  | .error _ => { up_convs := [], final_conv := UpConv.make 0 0 0 0 true true false }

theorem residualLoop_containsCat (c : Nat) (bn res : Bool) :
    ∀ (n : Nat) (x : Tensor), (residualLoop c bn res n x).containsCat = x.containsCat := by
  intro n
  induction n with
  | zero => intro x; rfl
  | succ m ih =>
      intro x
      cases bn <;> cases res <;>
        simp [residualLoop, ih, Tensor.containsCat]

theorem residualLoop_containsPool (c : Nat) (bn res : Bool) :
    ∀ (n : Nat) (x : Tensor), (residualLoop c bn res n x).containsPool = x.containsPool := by
  intro n
  induction n with
  | zero => intro x; rfl
  | succ m ih =>
      intro x
      cases bn <;> cases res <;>
        simp [residualLoop, ih, Tensor.containsPool]

theorem mainBlock_containsCat (u : UpConv) (x : Tensor) :
    (u.mainBlock x).containsCat = x.containsCat := by
  cases h : u.batch_norm <;>
    simp [UpConv.mainBlock, h, residualLoop_containsCat, Tensor.containsCat]

theorem convPart_containsPool (d : DownConv) (fe : Tensor) :
    (d.convPart fe).containsPool = fe.containsPool := by
  simp [DownConv.convPart, residualLoop_containsPool, Tensor.containsPool]

theorem dca_make_eq (in_c out_c blocks pool : Nat) (cfg : AttnConfig)
    (d : DownConvWithAttention)
    (h : DownConvWithAttention.make in_c out_c blocks pool cfg = .ok d) :
    d = { in_channels := in_c, out_channels := out_c, blocks := blocks,
          real_pool := if pool = 0 then none else some pool, cfg := cfg } := by
  unfold DownConvWithAttention.make at h
  split at h
  · simp at h
  · injection h with h
    exact h.symm

/-- Claim C2: constructing `MeshAttentionNet`, or `DownConvWithAttention` as
the attention encoder builds it, with `double_attention = true` and
`attn_use_values_as_is = false` always fails at construction with the
configuration assertion, regardless of every other parameter value. -/
theorem C2_double_attention_rejected (norm : NormKind) (nf0 : Nat) (conv_res : List Nat)
    (nclasses input_res : Nat) (pool_res : List Nat) (fc_n attn_n_heads : Nat)
    (cfg : AttnConfig) (in_c out_c dblocks dpool : Nat)
    (hd : cfg.double_attention = true) (hv : cfg.attn_use_values_as_is = false) :
    MeshAttentionNet.make norm nf0 conv_res nclasses input_res pool_res fc_n attn_n_heads cfg
        = .error (.assertionError doubleAttnMsg) ∧
    DownConvWithAttention.make in_c out_c dblocks dpool cfg
        = .error (.assertionError doubleAttnMsg) := by
  constructor
  · unfold MeshAttentionNet.make
    rw [hd, hv]
    rfl
  · unfold DownConvWithAttention.make
    rw [hd, hv]
    rfl

/-- Witness for C2 at a concrete parameter bundle. -/
theorem C2_double_attention_rejected_witness :
    MeshAttentionNet.make NormKind.group 5 [16, 32] 8 750 [600, 450] 100 4
        { prioritize_with_attention := false, attn_use_values_as_is := false,
          double_attention := true, attn_use_positional_encoding := false,
          attn_max_relative_position := 8 }
        = .error (.assertionError doubleAttnMsg) ∧
    DownConvWithAttention.make 3 8 1 140
        { prioritize_with_attention := false, attn_use_values_as_is := false,
          double_attention := true, attn_use_positional_encoding := false,
          attn_max_relative_position := 8 }
        = .error (.assertionError doubleAttnMsg) :=
  C2_double_attention_rejected NormKind.group 5 [16, 32] 8 750 [600, 450] 100 4
    { prioritize_with_attention := false, attn_use_values_as_is := false,
      double_attention := true, attn_use_positional_encoding := false,
      attn_max_relative_position := 8 } 3 8 1 140 rfl rfl

/-- Claim C5: a `UpConv` with `transfer_data = true` declares its main
convolution with input channel count `2 * out_channels`; with
`transfer_data = false` it declares it with `out_channels`, the forward pass
ignores the skip argument entirely, and no concatenation is performed. -/
theorem C5_upconv_channel_declaration (in_c out_c blocks unroll : Nat) (res bn : Bool)
    (fe : Tensor) (fd : Option Tensor) :
    (UpConv.make in_c out_c blocks unroll res bn true).conv1.1 = 2 * out_c ∧
    (UpConv.make in_c out_c blocks unroll res bn false).conv1.1 = out_c ∧
    (UpConv.make in_c out_c blocks unroll res bn false).forward fe fd
      = (UpConv.make in_c out_c blocks unroll res bn false).forward fe none ∧
    ((UpConv.make in_c out_c blocks unroll res bn false).forward fe fd).map Tensor.containsCat
      = .ok fe.containsCat := by
  refine ⟨by simp [UpConv.make], by simp [UpConv.make], ?_, ?_⟩
  · simp [UpConv.forward, UpConv.make]
  · cases bn <;> by_cases h : unroll = 0 <;>
      simp [UpConv.forward, UpConv.make, UpConv.mainBlock, h, residualLoop_containsCat,
        Tensor.containsCat, Except.map]

/-- Claim C7: a `DownConv` or `DownConvWithAttention` constructed with a zero
pooling argument returns a null pre-pool snapshot, and its returned features
are exactly the post-convolution (respectively post-attention) features,
with no pooling operation applied. -/
theorem C7_no_pool_stage_passthrough (in_c out_c blocks : Nat) (cfg : AttnConfig)
    (d : DownConvWithAttention) (fe : Tensor)
    (h : DownConvWithAttention.make in_c out_c blocks 0 cfg = .ok d) :
    (DownConv.make in_c out_c blocks 0).forward fe
        = ((DownConv.make in_c out_c blocks 0).convPart fe, none) ∧
    d.forward fe = (d.convPart fe, none) ∧
    (((DownConv.make in_c out_c blocks 0).forward fe).1).containsPool = fe.containsPool ∧
    ((d.forward fe).1).containsPool = fe.containsPool := by
  have hd := dca_make_eq in_c out_c blocks 0 cfg d h
  subst hd
  refine ⟨?_, ?_, ?_, ?_⟩
  · simp [DownConv.make, DownConv.forward]
  · simp [DownConvWithAttention.forward]
  · simp [DownConv.make, DownConv.forward, DownConv.convPart, residualLoop_containsPool,
      Tensor.containsPool]
  · simp [DownConvWithAttention.forward, DownConvWithAttention.convPart,
      DownConv.forward, DownConv.convPart, residualLoop_containsPool, Tensor.containsPool]

/-- Witness for C7 at a concrete stage configuration. -/
theorem C7_no_pool_stage_passthrough_witness :
    (DownConv.make 3 16 1 0).forward Tensor.input
        = ((DownConv.make 3 16 1 0).convPart Tensor.input, none) ∧
    (dcaOrDefault (DownConvWithAttention.make 3 16 1 0
        { prioritize_with_attention := true, attn_use_values_as_is := true,
          double_attention := true, attn_use_positional_encoding := false,
          attn_max_relative_position := 8 })).forward Tensor.input
      = ((dcaOrDefault (DownConvWithAttention.make 3 16 1 0
        { prioritize_with_attention := true, attn_use_values_as_is := true,
          double_attention := true, attn_use_positional_encoding := false,
          attn_max_relative_position := 8 })).convPart Tensor.input, none) ∧
    (((DownConv.make 3 16 1 0).forward Tensor.input).1).containsPool
        = Tensor.input.containsPool ∧
    (((dcaOrDefault (DownConvWithAttention.make 3 16 1 0
        { prioritize_with_attention := true, attn_use_values_as_is := true,
          double_attention := true, attn_use_positional_encoding := false,
          attn_max_relative_position := 8 })).forward Tensor.input).1).containsPool
        = Tensor.input.containsPool :=
  C7_no_pool_stage_passthrough 3 16 1
    { prioritize_with_attention := true, attn_use_values_as_is := true,
      double_attention := true, attn_use_positional_encoding := false,
      attn_max_relative_position := 8 } _ Tensor.input rfl

/-- Claim C8 (code bug): `define_loss` with a selector other than
`classification` or `segmentation` does not raise an identifying
configuration error; it falls through both branches and dies on the
unassigned local `loss` (an `UnboundLocalError`), here evaluated at the
failing input `regression`. -/
theorem C8_define_loss_unbound_local :
    define_loss "regression" = .error (.unboundLocalError "loss") ∧
    define_loss "classification" = .ok .crossEntropy ∧
    define_loss "segmentation" = .ok .crossEntropyIgnoreNeg1 := by
  refine ⟨?_, rfl, ?_⟩ <;> simp [define_loss]

theorem negIndex_eq_reverse (l : List (Option Tensor)) (i : Nat) (h : i + 2 ≤ l.length) :
    l.getD (l.length - (i + 2)) none = l.reverse.getD (i + 1) none := by
  have h1 : i + 1 < l.length := by omega
  rw [List.getD_eq_getElem?_getD, List.getD_eq_getElem?_getD]
  rw [List.getElem?_reverse h1]
  have h2 : l.length - 1 - (i + 1) = l.length - (i + 2) := by omega
  rw [h2]

/-- Claim C3: `MeshDecoder.forward` hands up-conv stage `i` the skip-cache
entry `encoder_outs[-(i+2)]`, i.e. the cache read in reverse order offset by
one past the bottleneck entry; with an absent cache every stage receives a
null skip; and `final_conv` is declared with unrolling disabled, skip
transfer disabled, and the last declared channel count as its output. -/
theorem C3_decoder_skip_wiring (l : List (Option Tensor)) (i : Nat) (convs : List Nat)
    (blocks : Nat) (bn : Bool) (h : i + 2 ≤ l.length) :
    MeshDecoder.skipFor (some l) i = .ok (l.reverse.getD (i + 1) none) ∧
    MeshDecoder.skipFor none i = .ok none ∧
    (MeshDecoder.finalConvOf convs blocks bn).unroll = none ∧
    (MeshDecoder.finalConvOf convs blocks bn).transfer_data = false ∧
    (MeshDecoder.finalConvOf convs blocks bn).out_channels = convs.getLastD 0 := by
  refine ⟨?_, rfl, by simp [MeshDecoder.finalConvOf, UpConv.make], rfl, rfl⟩
  show (if i + 2 ≤ l.length then Except.ok (l.getD (l.length - (i + 2)) none)
      else Except.error (PyError.indexError "encoder_outs"))
    = Except.ok (l.reverse.getD (i + 1) none)
  rw [if_pos h, negIndex_eq_reverse l i h]

/-- Witness for C3 on a concrete three-entry skip cache. -/
theorem C3_decoder_skip_wiring_witness :
    MeshDecoder.skipFor (some [none, some Tensor.input, none]) 0
        = .ok ([none, some Tensor.input, none].reverse.getD (0 + 1) none) ∧
    MeshDecoder.skipFor none 0 = .ok none ∧
    (MeshDecoder.finalConvOf [8, 4, 2] 0 true).unroll = none ∧
    (MeshDecoder.finalConvOf [8, 4, 2] 0 true).transfer_data = false ∧
    (MeshDecoder.finalConvOf [8, 4, 2] 0 true).out_channels = ([8, 4, 2] : List Nat).getLastD 0 :=
  C3_decoder_skip_wiring [none, some Tensor.input, none] 0 [8, 4, 2] 0 true (by decide)

theorem stagesForward_cons (s : Stage) (rest : List Stage) (fe : Tensor) :
    stagesForward (s :: rest) fe
      = ((stagesForward rest (s.forward fe).1).1,
         (s.forward fe).2 :: (stagesForward rest (s.forward fe).1).2) := rfl

theorem stagesForward_length : ∀ (st : List Stage) (fe : Tensor),
    (stagesForward st fe).2.length = st.length := by
  intro st
  induction st with
  | nil => intro fe; rfl
  | cons s rest ih => intro fe; rw [stagesForward_cons]; simp [ih]

theorem stagesForward_getD : ∀ (st : List Stage) (fe : Tensor) (i : Nat), i < st.length →
    (stagesForward st fe).2.getD i none
      = ((st.getD i dfltStage).forward (stageInput st fe i)).2 := by
  intro st
  induction st with
  | nil => intro fe i hi; simp at hi
  | cons s rest ih =>
      intro fe i hi
      cases i with
      | zero => rfl
      | succ j =>
          rw [stagesForward_cons]
          simp only [List.getD_cons_succ]
          exact ih (s.forward fe).1 j (by simpa using hi)

theorem Stage.forward_snd (s : Stage) (fe : Tensor) :
    (s.forward fe).2 = (match s.poolTarget with
      | none => none
      | some _ => some (s.prePool fe)) := by
  cases s with
  | plain d =>
      cases hp : d.pool <;>
        simp [Stage.forward, Stage.poolTarget, Stage.prePool, DownConv.forward, hp]
  | attn d =>
      cases hp : d.real_pool <;>
        simp [Stage.forward, Stage.poolTarget, Stage.prePool,
          DownConvWithAttention.forward, hp]

theorem buildPlainStages_length (pools convs : List Nat) (blocks : Nat) :
    ∀ (n i : Nat), (buildPlainStages pools convs blocks i n).length = n := by
  intro n
  induction n with
  | zero => intro i; rfl
  | succ m ih => intro i; simp [buildPlainStages, ih]

theorem buildPlainStages_getD (pools convs : List Nat) (blocks : Nat) :
    ∀ (n i j : Nat), j < n →
      (buildPlainStages pools convs blocks i n).getD j dfltStage
        = Stage.plain (DownConv.make (convs.getD (i + j) 0) (convs.getD (i + j + 1) 0) blocks
            (pools.getD (i + j + 1) 0)) := by
  intro n
  induction n with
  | zero => intro i j hj; omega
  | succ m ih =>
      intro i j hj
      cases j with
      | zero => simp [buildPlainStages]
      | succ jj =>
          simp only [buildPlainStages, List.getD_cons_succ]
          rw [ih (i + 1) jj (by omega)]
          have h1 : i + 1 + jj = i + (jj + 1) := by omega
          rw [h1]

theorem buildAttnStages_ok (pools convs : List Nat) (blocks : Nat) (cfg : AttnConfig) :
    ∀ (n i : Nat) (st : List Stage), buildAttnStages pools convs blocks cfg i n = .ok st →
      st.length = n ∧ ∀ j, j < n → (st.getD j dfltStage).poolTarget
        = (if pools.getD (i + j + 1) 0 = 0 then none
           else some (pools.getD (i + j + 1) 0)) := by
  intro n
  induction n with
  | zero =>
      intro i st h
      simp only [buildAttnStages] at h
      injection h with h
      subst h
      exact ⟨rfl, fun j hj => absurd hj (by omega)⟩
  | succ m ih =>
      intro i st h
      simp only [buildAttnStages] at h
      revert h
      cases hmk : DownConvWithAttention.make (convs.getD i 0) (convs.getD (i + 1) 0) blocks
          (pools.getD (i + 1) 0) cfg with
      | error e => intro h; simp at h
      | ok d =>
          intro h
          cases hrec : buildAttnStages pools convs blocks cfg (i + 1) m with
          | error e => rw [hrec] at h; simp [Except.map] at h
          | ok rest =>
              rw [hrec] at h
              simp only [Except.map, Except.ok.injEq] at h
              subst h
              obtain ⟨hlen, hpool⟩ := ih (i + 1) rest hrec
              have hd := dca_make_eq _ _ _ _ _ _ hmk
              subst hd
              refine ⟨by simp [hlen], ?_⟩
              intro j hj
              cases j with
              | zero => simp [Stage.poolTarget]
              | succ jj =>
                  simp only [List.getD_cons_succ]
                  rw [hpool jj (by omega)]
                  have h1 : i + 1 + jj = i + (jj + 1) := by omega
                  rw [h1]

theorem makeStages_ok (pools convs : List Nat) (blocks : Nat) (attn : Option AttnConfig)
    (st : List Stage) (h : makeStages pools convs blocks attn = .ok st) :
    st.length = convs.length - 1 ∧
    ∀ j, j < convs.length - 1 → (st.getD j dfltStage).poolTarget
      = (if pools.getD (j + 1) 0 = 0 then none else some (pools.getD (j + 1) 0)) := by
  cases attn with
  | none =>
      simp only [makeStages] at h
      injection h with h
      subst h
      constructor
      · exact buildPlainStages_length pools convs blocks _ 0
      · intro j hj
        rw [buildPlainStages_getD pools convs blocks _ 0 j hj]
        simp [Stage.poolTarget, DownConv.make]
  | some cfg =>
      have hh := buildAttnStages_ok pools convs blocks cfg (convs.length - 1) 0 st h
      simpa using hh

theorem meshEncoder_make_stages (pools convs : List Nat) (fcs : Option (List Nat))
    (blocks : Nat) (gp : Option String) (attn : Option AttnConfig) (e : MeshEncoder)
    (h : MeshEncoder.make pools convs fcs blocks gp attn = .ok e) :
    makeStages pools convs blocks attn = .ok e.stages := by
  unfold MeshEncoder.make at h
  split at h
  · simp at h
  · rename_i stages hst
    rw [hst]
    split at h
    · injection h with h; rw [← h]
    · split at h
      · simp at h
      · split at h
        · simp at h
        · split at h
          · simp at h
          · split at h
            · simp at h
            · injection h with h; rw [← h]

theorem meshEncoder_forward_snd (e : MeshEncoder) (fe : Tensor) :
    (e.forward fe).2 = (stagesForward e.stages fe).2 := by
  cases hf : e.hasFcs <;> simp [MeshEncoder.forward, hf]

/-- Claim C1: for every constructed `MeshEncoder`, forward returns a skip
cache of length `len(convs) - 1` whose entry `i` is non-null exactly when
`i + 1 < len(pools)` and `pools[i+1]` is nonzero, in which case it holds
stage `i`'s pre-pool feature snapshot. -/
theorem C1_encoder_skip_cache (pools convs : List Nat) (fcs : Option (List Nat))
    (blocks : Nat) (gp : Option String) (attn : Option AttnConfig) (e : MeshEncoder)
    (fe : Tensor) (i : Nat)
    (h : MeshEncoder.make pools convs fcs blocks gp attn = .ok e)
    (hi : i < convs.length - 1) :
    (e.forward fe).2.length = convs.length - 1 ∧
    (e.forward fe).2.getD i none =
      (if i + 1 < pools.length ∧ pools.getD (i + 1) 0 ≠ 0
       then some (Stage.prePool (e.stages.getD i dfltStage) (stageInput e.stages fe i))
       else none) := by
  have hst := meshEncoder_make_stages pools convs fcs blocks gp attn e h
  obtain ⟨hlen, hpool⟩ := makeStages_ok pools convs blocks attn e.stages hst
  constructor
  · rw [meshEncoder_forward_snd, stagesForward_length, hlen]
  · rw [meshEncoder_forward_snd,
      stagesForward_getD e.stages fe i (by rw [hlen]; exact hi),
      Stage.forward_snd]
    by_cases hz : pools.getD (i + 1) 0 = 0
    · rw [hpool i hi, if_pos hz, if_neg]
      rintro ⟨_, h2⟩
      exact h2 hz
    · rw [hpool i hi, if_neg hz, if_pos]
      refine ⟨?_, hz⟩
      by_contra hlt
      exact hz (by
        rw [List.getD_eq_getElem?_getD, List.getElem?_eq_none (by omega)]
        rfl)

/-- Witness for C1 at a concrete encoder. -/
theorem C1_encoder_skip_cache_witness :
    ((encOrDefault (MeshEncoder.make [100, 50] [3, 4, 5] none 0 none none)).forward
        Tensor.input).2.length = ([3, 4, 5] : List Nat).length - 1 ∧
    ((encOrDefault (MeshEncoder.make [100, 50] [3, 4, 5] none 0 none none)).forward
        Tensor.input).2.getD 0 none =
      (if 0 + 1 < ([100, 50] : List Nat).length ∧ ([100, 50] : List Nat).getD (0 + 1) 0 ≠ 0
       then some (Stage.prePool
          ((encOrDefault (MeshEncoder.make [100, 50] [3, 4, 5] none 0 none none)).stages.getD
            0 dfltStage)
          (stageInput
            (encOrDefault (MeshEncoder.make [100, 50] [3, 4, 5] none 0 none none)).stages
            Tensor.input 0))
       else none) :=
  C1_encoder_skip_cache [100, 50] [3, 4, 5] none 0 none none _ Tensor.input 0 rfl
    (by decide)

theorem upconv_forward_none_error (u : UpConv) (t : Tensor) (htd : u.transfer_data = true) :
    u.forward t none
      = .error (.typeError "expected Tensor as element 1 in argument 0, but got NoneType") := by
  simp [UpConv.forward, htd]

theorem buildUps_transfer (unrolls convs : List Nat) (blocks : Nat) (bn td : Bool) :
    ∀ (n i : Nat) (u : UpConv), u ∈ buildUps unrolls convs blocks bn td i n →
      u.transfer_data = td := by
  intro n
  induction n with
  | zero => intro i u hu; simp [buildUps] at hu
  | succ m ih =>
      intro i u hu
      simp only [buildUps, List.mem_cons] at hu
      rcases hu with h | h
      · subst h; rfl
      · exact ih (i + 1) u h

theorem meshDecoder_make_eq (unrolls convs : List Nat) (blocks : Nat) (bn td : Bool)
    (d : MeshDecoder) (h : MeshDecoder.make unrolls convs blocks bn td = .ok d) :
    d.up_convs = buildUps unrolls convs blocks bn td 0 (convs.length - 2) ∧
    d.final_conv = MeshDecoder.finalConvOf convs blocks bn := by
  unfold MeshDecoder.make at h
  split at h
  · simp at h
  · injection h with h
    rw [← h]
    exact ⟨rfl, rfl⟩

/-- Claim C9: a `UpConv` built with `transfer_data = true` concatenates the
skip input unconditionally — there is no null-skip branch — so with a null
`from_down` (as `MeshDecoder.forward` supplies when invoked without a skip
cache while built with skip transfer) the concatenation step fails instead
of falling back to the up-conv output alone; the whole decoder forward pass
then fails the same way at its first stage. -/
theorem C9_null_skip_concat_fails (in_c out_c blocks unroll : Nat) (res bn : Bool)
    (fe : Tensor) (unrolls convs : List Nat) (blocks2 : Nat) (bn2 : Bool) (d : MeshDecoder)
    (hd : MeshDecoder.make unrolls convs blocks2 bn2 true = .ok d)
    (hne : d.up_convs ≠ []) :
    (UpConv.make in_c out_c blocks unroll res bn true).forward fe none
        = .error (.typeError "expected Tensor as element 1 in argument 0, but got NoneType") ∧
    d.forward fe none
        = .error (.typeError "expected Tensor as element 1 in argument 0, but got NoneType") := by
  refine ⟨upconv_forward_none_error _ fe rfl, ?_⟩
  obtain ⟨hups, hfin⟩ := meshDecoder_make_eq unrolls convs blocks2 bn2 true d hd
  obtain ⟨u, rest, hcons⟩ := List.exists_cons_of_ne_nil hne
  have hu : u.transfer_data = true := by
    apply buildUps_transfer unrolls convs blocks2 bn2 true (convs.length - 2) 0 u
    rw [← hups, hcons]
    exact List.mem_cons_self u rest
  have hloop : decoderLoop none (u :: rest) 0 fe
      = .error (.typeError "expected Tensor as element 1 in argument 0, but got NoneType") := by
    simp [decoderLoop, MeshDecoder.skipFor, upconv_forward_none_error u fe hu]
  unfold MeshDecoder.forward
  rw [hcons, hloop]

/-- Witness for C9 at a concrete up-conv and decoder. -/
theorem C9_null_skip_concat_fails_witness :
    (UpConv.make 4 2 0 0 true true true).forward Tensor.input none
        = .error (.typeError "expected Tensor as element 1 in argument 0, but got NoneType") ∧
    (decOrDefault (MeshDecoder.make [100] [8, 4, 2] 0 true true)).forward Tensor.input none
        = .error (.typeError "expected Tensor as element 1 in argument 0, but got NoneType") :=
  C9_null_skip_concat_fails 4 2 0 0 true true Tensor.input [100] [8, 4, 2] 0 true _ rfl
    (by decide)

theorem buildFcs_length : ∀ (ls : List Nat) (l0 : Nat), (buildFcs l0 ls).length = ls.length := by
  intro ls
  induction ls with
  | nil => intro l0; rfl
  | cons a as ih => intro l0; simp [buildFcs, ih]

theorem meshEncoder_make_fcLayers (pools convs : List Nat) (f : Nat) (rest : List Nat)
    (blocks : Nat) (gp : Option String) (gpk : Option GPool) (attn : Option AttnConfig)
    (e : MeshEncoder) (hgp : parseGlobalPool gp = .ok gpk)
    (h : MeshEncoder.make pools convs (some (f :: rest)) blocks gp attn = .ok e) :
    e.fcLayers = buildFcs (fcInputLength convs pools gpk)
      (if f = fcInputLength convs pools gpk then rest else f :: rest) := by
  simp only [MeshEncoder.make] at h
  split at h
  · simp at h
  · split at h
    · simp at h
    · split at h
      · simp at h
      · rename_i gpk2 hgp2
        rw [hgp] at hgp2
        injection hgp2 with hgp2
        subst hgp2
        split at h
        · simp at h
        · injection h with h
          rw [← h]

theorem meshEncoder_make_some_hasFcs (pools convs : List Nat) (fcl : List Nat) (blocks : Nat)
    (gp : Option String) (attn : Option AttnConfig) (e : MeshEncoder)
    (h : MeshEncoder.make pools convs (some fcl) blocks gp attn = .ok e) :
    e.hasFcs = true := by
  simp only [MeshEncoder.make] at h
  split at h
  · simp at h
  · split at h
    · simp at h
    · split at h
      · simp at h
      · split at h
        · simp at h
        · split at h
          · simp at h
          · injection h with h
            rw [← h]

theorem meshEncoder_forward_fst_fcs (e : MeshEncoder) (fe : Tensor) (h : e.hasFcs = true) :
    (e.forward fe).1
      = fcChain e.fcLayers (Tensor.flatten (applyGPool e.global_pool
          (stagesForward e.stages fe).1)) := by
  simp [MeshEncoder.forward, h]

theorem fcChain_head : ∀ (layers : List (Nat × Nat)) (fe : Tensor), layers ≠ [] →
    (fcChain layers fe).headIsNorm1d = true ∧ (fcChain layers fe).headIsRelu = false := by
  intro layers
  induction layers with
  | nil => intro fe hne; exact absurd rfl hne
  | cons p rest ih =>
      intro fe hne
      cases rest with
      | nil =>
          obtain ⟨a, b⟩ := p
          simp [fcChain, Tensor.headIsNorm1d, Tensor.headIsRelu]
      | cons q rs =>
          obtain ⟨a, b⟩ := p
          simp only [fcChain]
          exact ih _ (by simp)

/-- Claim C6 counterexample: a concrete encoder with a fully connected head
(one declared layer) whose forward output has the `InstanceNorm1d`
normalization as its outermost operation — normalization does follow the
final fully connected layer, contradicting the claim that neither
normalization nor nonlinearity does. -/
theorem C6_counterexample :
    (MeshEncoder.make [100, 50] [3, 4] (some [10]) 0 (some "avg") none).map
        (fun e => (e.fcLayers, Tensor.headIsNorm1d (e.forward Tensor.input).1))
      = .ok ([(4, 10)], true) := by
  rfl

/-- Claim C6 (amended): with a fully connected head, forward applies the
global pool when configured, flattens, then applies the fully connected
layers in order; the `InstanceNorm1d` normalization follows every layer,
including the final one, while the relu nonlinearity is applied between all
but the last layer only — so no nonlinearity follows the final layer, but
normalization does. -/
theorem C6_amended_fc_head (pools convs fcl : List Nat) (blocks : Nat) (gp : Option String)
    (attn : Option AttnConfig) (e : MeshEncoder) (fe : Tensor)
    (h : MeshEncoder.make pools convs (some fcl) blocks gp attn = .ok e)
    (hne : e.fcLayers ≠ []) :
    (e.forward fe).1
      = fcChain e.fcLayers (Tensor.flatten (applyGPool e.global_pool
          (stagesForward e.stages fe).1)) ∧
    ((e.forward fe).1).headIsNorm1d = true ∧
    ((e.forward fe).1).headIsRelu = false := by
  have hf := meshEncoder_make_some_hasFcs pools convs fcl blocks gp attn e h
  have h1 := meshEncoder_forward_fst_fcs e fe hf
  refine ⟨h1, ?_, ?_⟩
  · rw [h1]
    exact (fcChain_head e.fcLayers _ hne).1
  · rw [h1]
    exact (fcChain_head e.fcLayers _ hne).2

/-- Witness for C6 (amended) at a concrete encoder with a fully connected
head. -/
theorem C6_amended_fc_head_witness :
    ((encOrDefault (MeshEncoder.make [100, 50] [3, 4] (some [10]) 0 (some "avg") none)).forward
        Tensor.input).1
      = fcChain (encOrDefault (MeshEncoder.make [100, 50] [3, 4] (some [10]) 0 (some "avg")
            none)).fcLayers
          (Tensor.flatten (applyGPool
            (encOrDefault (MeshEncoder.make [100, 50] [3, 4] (some [10]) 0 (some "avg")
              none)).global_pool
            (stagesForward
              (encOrDefault (MeshEncoder.make [100, 50] [3, 4] (some [10]) 0 (some "avg")
                none)).stages Tensor.input).1)) ∧
    (((encOrDefault (MeshEncoder.make [100, 50] [3, 4] (some [10]) 0 (some "avg")
        none)).forward Tensor.input).1).headIsNorm1d = true ∧
    (((encOrDefault (MeshEncoder.make [100, 50] [3, 4] (some [10]) 0 (some "avg")
        none)).forward Tensor.input).1).headIsRelu = false :=
  C6_amended_fc_head [100, 50] [3, 4] [10] 0 (some "avg") none _ Tensor.input rfl (by decide)

/-- Claim C10: when the first declared fully connected width equals the
computed flattened input length, that first entry is silently dropped — no
linear layer is built for it and the chain starts from the second declared
width. -/
theorem C10_first_fc_width_dropped (pools convs rest_fcs : List Nat) (blocks : Nat)
    (gp : Option String) (gpk : Option GPool) (e : MeshEncoder)
    (hgp : parseGlobalPool gp = .ok gpk)
    (h : MeshEncoder.make pools convs (some (fcInputLength convs pools gpk :: rest_fcs))
        blocks gp none = .ok e) :
    e.fcLayers = buildFcs (fcInputLength convs pools gpk) rest_fcs ∧
    e.fcLayers.length = rest_fcs.length := by
  have hf := meshEncoder_make_fcLayers pools convs _ rest_fcs blocks gp gpk none e hgp h
  rw [if_pos rfl] at hf
  exact ⟨hf, by rw [hf, buildFcs_length]⟩

/-- Witness for C10 at a concrete encoder whose first declared width equals
the flattened length `convs[-1] * pools[-1] = 4 * 50`. -/
theorem C10_first_fc_width_dropped_witness :
    (encOrDefault (MeshEncoder.make [100, 50] [3, 4]
        (some (fcInputLength [3, 4] [100, 50] none :: [10])) 0 none none)).fcLayers
      = buildFcs (fcInputLength [3, 4] [100, 50] none) [10] ∧
    (encOrDefault (MeshEncoder.make [100, 50] [3, 4]
        (some (fcInputLength [3, 4] [100, 50] none :: [10])) 0 none none)).fcLayers.length
      = ([10] : List Nat).length :=
  C10_first_fc_width_dropped [100, 50] [3, 4] [10] 0 none none _ rfl rfl
